import Mathlib

/-!
Verification development for the rust-snek dynamic-library loader.

The repository wraps the operating system's dynamic-loading facility
(dlopen / dlsym / dlclose / dlerror on unix, the kernel32 equivalents on
windows) behind a small safe-ish interface:

* `load_library` / `load_symbol` / `drop_library` (src/snek/unix.rs and
  src/snek/windows.rs) are the platform backends;
* `Snek` (src/snek/mod.rs) owns one library handle and resolves symbols;
* `SnekSymbol` (src/symbol.rs) wraps one resolved address and reinterprets it
  as a caller-asserted function type in `with`;
* the `snek!` macro (src/lib.rs) generates a wrapper struct whose `load`
  opens the library and resolves every declared symbol in order.

The embedding below models the platform as an oracle (`Platform`): a pure
description of what address each dlopen / dlsym call would return and what
diagnostic each failure would deposit in the loader's last-error slot.
Executions are state-passing over `St`, which carries the last-error slot
and a trace of the platform calls issued, so that ordering properties
(which call reads the error slot, when dlclose is issued) are statable.
Machine addresses are modelled as `Nat` with `0` as the null sentinel,
exactly the comparison the source performs (`result == 0 as *mut c_void`,
`module.is_null()`).
-/

/-- A platform call, recorded in the execution trace in the order the
source issues the calls. `dlerrorEv` records the string the call returned. -/
inductive PEvent where
  | dlopenEv (path : String) (result : Nat)
  | dlsymEv (handle : Nat) (name : String) (result : Nat)
  | dlerrorEv (result : String)
  | dlcloseEv (handle : Nat)
deriving DecidableEq, Repr

/-- The dynamic-loader oracle: which address each open / resolve returns
(`0` is the null failure sentinel) and which diagnostic string the loader
deposits in its last-error slot when that call fails. -/
structure Platform where
  openAddr : String → Nat
  openErr : String → String
  symAddr : Nat → String → Nat
  symErr : Nat → String → String

/-- Mutable execution state: the loader's last-error slot plus the trace
of platform calls issued so far. -/
structure St where
  lastError : String
  trace : List PEvent
deriving DecidableEq, Repr

/-- The platform's `dlopen`: returns the oracle's address for the path and,
on failure (null result), deposits the failure diagnostic in the
last-error slot. -/
def dlopen (P : Platform) (path : String) (s : St) : Nat × St :=
  let r := P.openAddr path
  (r, { lastError := if r = 0 then P.openErr path else s.lastError,
        trace := s.trace ++ [PEvent.dlopenEv path r] })

/-- The platform's `dlsym`: returns the oracle's address for the symbol
and, on failure, deposits the failure diagnostic in the last-error slot. -/
def dlsym (P : Platform) (h : Nat) (name : String) (s : St) : Nat × St :=
  let r := P.symAddr h name
  (r, { lastError := if r = 0 then P.symErr h name else s.lastError,
        trace := s.trace ++ [PEvent.dlsymEv h name r] })

/-- The platform's `dlerror`: reads the last-error slot. Like every other
platform call it is recorded in the trace, since the slot may be
overwritten by any later platform call. -/
def dlerror (s : St) : String × St :=
  (s.lastError, { s with trace := s.trace ++ [PEvent.dlerrorEv s.lastError] })

/-- The platform's `dlclose`. The source discards its result, so the model
records only the event. -/
def dlclose (h : Nat) (s : St) : St :=
  { s with trace := s.trace ++ [PEvent.dlcloseEv h] }

/-- `Error` from src/lib.rs lines 63-67: the two public error kinds, each
carrying the platform diagnostic string. -/
inductive Error where
  | LibraryLoadError (msg : String)
  | SymbolLoadError (msg : String)
deriving DecidableEq, Repr

/-- Result of running a fallible Rust function that may also abort the
process: `panicked` models the `.unwrap()` panic on a failed `CString`
conversion, which never surfaces as a normal return value. -/
inductive Outcome (α : Type) where
  | ok (val : α)
  | panicked
deriving DecidableEq, Repr

/-- `CString::new(bytes)` fails exactly when the byte string contains a
null byte; in UTF-8 a null byte occurs only as the encoding of U+0000. -/
def containsNul (str : String) : Bool :=
  str.data.contains (Char.ofNat 0)

/-- `load_library` from src/snek/unix.rs lines 36-46: convert the path to a
C string (`.unwrap()` panics on an interior null), call `dlopen`, and on a
null result read `dlerror` into a `LibraryLoadError`. -/
def load_library (P : Platform) (path : String) (s : St) :
    Outcome (Except Error Nat) × St :=
  if containsNul path then (Outcome.panicked, s)
  else
    let (result, s1) := dlopen P path s
    if result = 0 then
      let (err, s2) := dlerror s1
      (Outcome.ok (Except.error (Error.LibraryLoadError err)), s2)
    else
      (Outcome.ok (Except.ok result), s1)

/-- `load_symbol` from src/snek/unix.rs lines 48-58: convert the name to a
C string (`.unwrap()` panics on an interior null), call `dlsym`, and on a
null result read `dlerror` into a `SymbolLoadError`. -/
def load_symbol (P : Platform) (h : Nat) (symbol : String) (s : St) :
    Outcome (Except Error Nat) × St :=
  if containsNul symbol then (Outcome.panicked, s)
  else
    let (result, s1) := dlsym P h symbol s
    if result = 0 then
      let (err, s2) := dlerror s1
      (Outcome.ok (Except.error (Error.SymbolLoadError err)), s2)
    else
      (Outcome.ok (Except.ok result), s1)

/-- `drop_library` from src/snek/unix.rs lines 60-62: unconditionally
`dlclose` the handle. -/
def drop_library (h : Nat) (s : St) : St :=
  dlclose h s

/-- `SnekSymbol` from src/symbol.rs lines 27-32: one resolved address (the
`PhantomData` lifetime marker has no runtime content). -/
structure SnekSymbol where
  symbol : Nat
deriving DecidableEq, Repr

/-- `SnekSymbol::new` from src/symbol.rs lines 38-44. -/
def SnekSymbol.new (symbol : Nat) : SnekSymbol :=
  { symbol := symbol }

/-- `SnekSymbol::with` from src/symbol.rs lines 71-74: `ptr::read` the stored
address as a value of the caller-asserted type `T` and apply `f` to it.
The bit-level reinterpretation (`ptr::read` at type `T` of the address's
storage) is not expressible over an abstract `T`, so the model takes it as
an explicit argument `reinterpret`, universally quantified in the
theorems: for every way the bit pattern may be read as a `T`, `with`
applies `f` to the reading of the stored address. -/
def SnekSymbol.with' {T U : Type} (reinterpret : Nat → T) (self : SnekSymbol)
    (f : T → U) : U :=
  f (reinterpret self.symbol)

/-- `Snek` from src/snek/mod.rs lines 68-71: nothing but the handle. -/
structure Snek where
  handle : Nat
deriving DecidableEq, Repr

/-- `Snek::load` from src/snek/mod.rs lines 78-80:
`load_library(path).map(|result| Snek { handle: result })`. -/
def Snek.load (P : Platform) (path : String) (s : St) :
    Outcome (Except Error Snek) × St :=
  match load_library P path s with
  | (Outcome.panicked, s1) => (Outcome.panicked, s1)
  | (Outcome.ok (Except.error e), s1) => (Outcome.ok (Except.error e), s1)
  | (Outcome.ok (Except.ok h), s1) =>
      (Outcome.ok (Except.ok { handle := h }), s1)

/-- `Snek::symbol` from src/snek/mod.rs lines 86-88:
`load_symbol(self.handle, symbol).map(|result| SnekSymbol::new(result))`.
It takes `&self`, so the `Snek` value itself is read-only here. -/
def Snek.symbol (P : Platform) (self : Snek) (symbol : String) (s : St) :
    Outcome (Except Error SnekSymbol) × St :=
  match load_symbol P self.handle symbol s with
  | (Outcome.panicked, s1) => (Outcome.panicked, s1)
  | (Outcome.ok (Except.error e), s1) => (Outcome.ok (Except.error e), s1)
  | (Outcome.ok (Except.ok a), s1) =>
      (Outcome.ok (Except.ok (SnekSymbol.new a)), s1)

/-- `impl Drop for Snek` from src/snek/mod.rs lines 91-95:
`drop_library(self.handle)`. -/
def Snek.drop (self : Snek) (s : St) : St :=
  drop_library self.handle s

/-- Wrapper type generated by the `snek!` macro (src/lib.rs lines 121-124)
for a given list of declared symbol names: the library handle plus one
`SnekSymbol` per declared name, in declaration order. -/
structure GenWrapper where
  handle : Nat
  symbols : List SnekSymbol
deriving DecidableEq, Repr

/-- The symbol-resolving part of the macro-generated `load` (src/lib.rs
lines 133-139): resolve each declared name in order against the open
handle; the first failure early-returns that failure. In the source the
early return happens inside the struct-literal expression, so the wrapper
value is never constructed; the already-resolved `SnekSymbol` fields are
discarded (they have no destructor). -/
def loadSymbols (P : Platform) (h : Nat) (names : List String) (s : St) :
    Outcome (Except Error (List SnekSymbol)) × St :=
  match names with
  | [] => (Outcome.ok (Except.ok []), s)
  | n :: rest =>
    match load_symbol P h n s with
    | (Outcome.panicked, s1) => (Outcome.panicked, s1)
    | (Outcome.ok (Except.error e), s1) => (Outcome.ok (Except.error e), s1)
    | (Outcome.ok (Except.ok a), s1) =>
      match loadSymbols P h rest s1 with
      | (Outcome.panicked, s2) => (Outcome.panicked, s2)
      | (Outcome.ok (Except.error e), s2) =>
          (Outcome.ok (Except.error e), s2)
      | (Outcome.ok (Except.ok syms), s2) =>
          (Outcome.ok (Except.ok (SnekSymbol.new a :: syms)), s2)

/-- The macro-generated `load` (src/lib.rs lines 127-140): open the
library, then resolve every declared symbol in order. On a symbol failure
the source executes `return Err(err)` from inside the struct literal
(src/lib.rs line 137): the wrapper value is never fully constructed, so
the generated `Drop` impl (src/lib.rs lines 147-151) does not run, and the
`handle` field is a raw `*mut c_void` with no destructor of its own —
consequently no `dlclose` call is issued on the open handle on this path,
which the model reproduces faithfully. -/
def genLoad (P : Platform) (names : List String) (path : String) (s : St) :
    Outcome (Except Error GenWrapper) × St :=
  match load_library P path s with
  | (Outcome.panicked, s1) => (Outcome.panicked, s1)
  | (Outcome.ok (Except.error e), s1) => (Outcome.ok (Except.error e), s1)
  | (Outcome.ok (Except.ok h), s1) =>
    match loadSymbols P h names s1 with
    | (Outcome.panicked, s2) => (Outcome.panicked, s2)
    | (Outcome.ok (Except.error e), s2) => (Outcome.ok (Except.error e), s2)
    | (Outcome.ok (Except.ok syms), s2) =>
        (Outcome.ok (Except.ok { handle := h, symbols := syms }), s2)

/-- The macro-generated `Drop` (src/lib.rs lines 147-151):
`snek::drop_library(self.handle)`. -/
def GenWrapper.drop (self : GenWrapper) (s : St) : St :=
  drop_library self.handle s

/-- `true` exactly on a `dlclose` event for handle `h`. -/
def PEvent.isCloseOf (h : Nat) : PEvent → Bool
  | PEvent.dlcloseEv h2 => h2 = h
  | _ => false

/-- Number of `dlclose` calls issued on handle `h` in a trace. -/
def closeCount (h : Nat) (t : List PEvent) : Nat :=
  (t.filter (PEvent.isCloseOf h)).length

/-- A sequence of `Snek::symbol` calls on one `Snek` instance, threading
the platform state; models a caller using the handle between construction
and destruction. -/
def runSymbolCalls (P : Platform) (sn : Snek) (names : List String)
    (s : St) : St :=
  match names with
  | [] => s
  | n :: rest => runSymbolCalls P sn rest (Snek.symbol P sn n s).2

/-- A concrete platform for closed evaluations: every open succeeds with
handle 7, symbol "hello" resolves to 3, every other symbol fails with
diagnostic "undefined symbol". -/
def bugPlatform : Platform where
  openAddr := fun _ => 7
  openErr := fun _ => "open failed"
  symAddr := fun _ n => if n = "hello" then 3 else 0
  symErr := fun _ _ => "undefined symbol"

/-- The empty initial state. -/
def st0 : St := { lastError := "", trace := [] }

/-- Two's-complement reading of the low 32 bits, modelling Rust's
`u32 as i32` cast (`win32 as HRESULT` in src/snek/windows.rs). -/
def toInt32 (n : Nat) : Int :=
  if n % 2 ^ 32 < 2 ^ 31 then ((n % 2 ^ 32 : Nat) : Int)
  else ((n % 2 ^ 32 : Nat) : Int) - 2 ^ 32

/-- Low 32 bits of an integer, modelling Rust's `i32 as u32` cast
(`hr as DWORD` in src/snek/windows.rs). -/
def toUInt32n (i : Int) : Nat := (i % 2 ^ 32).toNat

/-- `winapi::FACILITY_WIN32`. -/
def FACILITY_WIN32 : Nat := 7

/-- Oracle for the windows backend (src/snek/windows.rs): what
`LoadLibraryA` and `GetProcAddress` return (`0` models the null pointer),
the calling thread's `GetLastError` code at the moment of failure, and the
string `FormatMessageA` produces for a given message id (`""` models
`num_chars == 0`). The error-string path in this backend is stateless, so
no trace is threaded. -/
structure WinPlatform where
  loadLibraryA : String → Nat
  getProcAddress : Nat → String → Nat
  getLastError : Nat
  formatMessage : Nat → String

namespace Windows

/-- `hresult_from_win32` from src/snek/windows.rs lines 60-66: a code that
is already non-positive as an `i32` passes through; otherwise the low 16
bits are tagged with `FACILITY_WIN32` and the severity bit. -/
def hresult_from_win32 (win32 : Nat) : Int :=
  if toInt32 win32 ≤ 0 then toInt32 win32
  else toInt32 ((win32 &&& 0x0000FFFF) ||| (FACILITY_WIN32 <<< 16)
                  ||| 0x80000000)

/-- `hresult_to_string` from src/snek/windows.rs lines 68-92: format the
code; if `FormatMessageA` produced zero characters, return `None`,
otherwise the formatted message. -/
def hresult_to_string (W : WinPlatform) (hr : Int) : Option String :=
  let msg := W.formatMessage (toUInt32n hr)
  if msg.length = 0 then none else some msg

/-- `last_error_hr` from src/snek/windows.rs lines 94-96. -/
def last_error_hr (W : WinPlatform) : Int :=
  hresult_from_win32 (W.getLastError % 2 ^ 32)

/-- `last_error_string` from src/snek/windows.rs lines 98-100. -/
def last_error_string (W : WinPlatform) : Option String :=
  hresult_to_string W (last_error_hr W)

/-- `load_library` from src/snek/windows.rs lines 31-41: convert the path
(`.unwrap()` panics on an interior null), call `LoadLibraryA`, and on a
null module produce `LibraryLoadError` with
`last_error_string().unwrap_or_else(|| "Unknown Error".into())`. -/
def load_library (W : WinPlatform) (path : String) :
    Outcome (Except Error Nat) :=
  if containsNul path then Outcome.panicked
  else if W.loadLibraryA path = 0 then
    Outcome.ok (Except.error (Error.LibraryLoadError
      ((last_error_string W).getD "Unknown Error")))
  else Outcome.ok (Except.ok (W.loadLibraryA path))

/-- `load_symbol` from src/snek/windows.rs lines 43-54: convert the name
(`.unwrap()` panics on an interior null), call `GetProcAddress`, and on a
null result produce `SymbolLoadError` with the same fallback. -/
def load_symbol (W : WinPlatform) (handle : Nat) (symbol : String) :
    Outcome (Except Error Nat) :=
  if containsNul symbol then Outcome.panicked
  else if W.getProcAddress handle symbol = 0 then
    Outcome.ok (Except.error (Error.SymbolLoadError
      ((last_error_string W).getD "Unknown Error")))
  else Outcome.ok (Except.ok (W.getProcAddress handle symbol))

end Windows

/-- A concrete platform on which every open and every resolve fails, with
fixed diagnostics. -/
def failPlatform : Platform where
  openAddr := fun _ => 0
  openErr := fun _ => "cannot open"
  symAddr := fun _ _ => 0
  symErr := fun _ _ => "no symbol"

/-- A string consisting of a single null character: its C-string
conversion fails. -/
def nulStr : String := String.mk [Char.ofNat 0]

/-- A concrete windows platform on which every open and resolve fails,
the captured error code is 5, and `FormatMessageA` always yields zero
characters. -/
def zeroFmtWin : WinPlatform where
  loadLibraryA := fun _ => 0
  getProcAddress := fun _ _ => 0
  getLastError := 5
  formatMessage := fun _ => ""

/-!  Helper lemmas shared among the claim theorems.  -/

/-- `closeCount` distributes over trace concatenation. -/
theorem closeCount_append (h : Nat) (t u : List PEvent) :
    closeCount h (t ++ u) = closeCount h t + closeCount h u := by
  simp [closeCount, List.filter_append]

/-- Full characterization of `load_library` on a convertible path. -/
theorem load_library_spec (P : Platform) (path : String) (s : St)
    (hnul : containsNul path = false) :
    load_library P path s =
      if P.openAddr path = 0 then
        (Outcome.ok (Except.error
            (Error.LibraryLoadError (P.openErr path))),
         { lastError := P.openErr path,
           trace := s.trace ++ [PEvent.dlopenEv path 0,
                                PEvent.dlerrorEv (P.openErr path)] })
      else
        (Outcome.ok (Except.ok (P.openAddr path)),
         { lastError := s.lastError,
           trace := s.trace
             ++ [PEvent.dlopenEv path (P.openAddr path)] }) := by
  unfold load_library dlopen dlerror
  by_cases hz : P.openAddr path = 0 <;> simp [hnul, hz]

/-- Full characterization of `load_symbol` on a convertible name. -/
theorem load_symbol_spec (P : Platform) (h : Nat) (name : String) (s : St)
    (hnul : containsNul name = false) :
    load_symbol P h name s =
      if P.symAddr h name = 0 then
        (Outcome.ok (Except.error
            (Error.SymbolLoadError (P.symErr h name))),
         { lastError := P.symErr h name,
           trace := s.trace ++ [PEvent.dlsymEv h name 0,
                                PEvent.dlerrorEv (P.symErr h name)] })
      else
        (Outcome.ok (Except.ok (P.symAddr h name)),
         { lastError := s.lastError,
           trace := s.trace
             ++ [PEvent.dlsymEv h name (P.symAddr h name)] }) := by
  unfold load_symbol dlsym dlerror
  by_cases hz : P.symAddr h name = 0 <;> simp [hnul, hz]

/-- The state produced by `Snek.symbol` is that of the underlying
`load_symbol`. -/
theorem snek_symbol_state (P : Platform) (sn : Snek) (n : String) (s : St) :
    (Snek.symbol P sn n s).2 = (load_symbol P sn.handle n s).2 := by
  unfold Snek.symbol
  rcases hls : load_symbol P sn.handle n s with ⟨r, s1⟩
  rcases r with v | _
  · rcases v with e | a <;> simp
  · simp

/-- The result of `Snek.symbol` is the `load_symbol` result with `Ok`
wrapped through `SnekSymbol.new`. -/
theorem snek_symbol_fst (P : Platform) (sn : Snek) (n : String) (s : St) :
    (Snek.symbol P sn n s).1 =
      match (load_symbol P sn.handle n s).1 with
      | Outcome.panicked => Outcome.panicked
      | Outcome.ok (Except.error e) => Outcome.ok (Except.error e)
      | Outcome.ok (Except.ok a) =>
          Outcome.ok (Except.ok (SnekSymbol.new a)) := by
  unfold Snek.symbol
  rcases hls : load_symbol P sn.handle n s with ⟨r, s1⟩
  rcases r with v | _
  · rcases v with e | a <;> simp
  · simp

/-- The value returned by `load_symbol` does not depend on the incoming
state: it is a function of the platform, the handle and the name alone. -/
theorem load_symbol_fst_const (P : Platform) (h : Nat) (n : String)
    (s s' : St) :
    (load_symbol P h n s).1 = (load_symbol P h n s').1 := by
  unfold load_symbol dlsym dlerror
  by_cases hn : containsNul n <;> by_cases hz : P.symAddr h n = 0 <;>
    simp [hn, hz]

/-- `load_symbol` never appends a `dlclose` event. -/
theorem closeCount_load_symbol (P : Platform) (h : Nat) (n : String)
    (s : St) (hc : Nat) :
    closeCount hc ((load_symbol P h n s).2).trace
      = closeCount hc s.trace := by
  unfold load_symbol dlsym dlerror
  by_cases hn : containsNul n <;> by_cases hz : P.symAddr h n = 0 <;>
    simp [hn, hz, closeCount_append, closeCount, PEvent.isCloseOf]

/-- A whole sequence of `Snek.symbol` calls never appends a `dlclose`
event. -/
theorem closeCount_runSymbolCalls (P : Platform) (sn : Snek)
    (names : List String) (s : St) (hc : Nat) :
    closeCount hc (runSymbolCalls P sn names s).trace
      = closeCount hc s.trace := by
  induction names generalizing s with
  | nil => rfl
  | cons n rest ih =>
      rw [runSymbolCalls, ih, snek_symbol_state]
      exact closeCount_load_symbol P sn.handle n s hc

/-- Inversion of a successful `Snek.load`. -/
theorem snek_load_ok_inv (P : Platform) (path : String) (s s1 : St)
    (sn : Snek)
    (hres : Snek.load P path s = (Outcome.ok (Except.ok sn), s1)) :
    load_library P path s = (Outcome.ok (Except.ok sn.handle), s1) := by
  unfold Snek.load at hres
  rcases hls : load_library P path s with ⟨r, s2⟩
  rw [hls] at hres
  rcases r with v | _
  · rcases v with e | a
    · simp at hres
    · simp at hres
      obtain ⟨h1, h2⟩ := hres
      rw [h2, ← h1]
  · simp at hres

/-- Inversion of a successful `load_library`: the handle is the platform's
(non-null) address and the state gained exactly the open event. -/
theorem load_library_ok_inv (P : Platform) (path : String) (s s1 : St)
    (a : Nat)
    (hres : load_library P path s = (Outcome.ok (Except.ok a), s1)) :
    containsNul path = false ∧ a = P.openAddr path ∧ a ≠ 0
    ∧ s1 = { lastError := s.lastError,
             trace := s.trace ++ [PEvent.dlopenEv path a] } := by
  by_cases hnul : containsNul path
  · unfold load_library at hres
    simp [hnul] at hres
  · rw [load_library_spec P path s (by simpa using hnul)] at hres
    by_cases hz : P.openAddr path = 0
    · simp [hz] at hres
    · simp [hz] at hres
      rcases hres with ⟨ha, hs⟩
      subst ha
      exact ⟨by simpa using hnul, rfl, hz, hs.symm⟩

/-- Inversion of a successful `load_symbol`: the address is the platform's
(non-null) resolution and the state gained exactly the resolve event. -/
theorem load_symbol_ok_inv (P : Platform) (h : Nat) (name : String)
    (s s1 : St) (a : Nat)
    (hres : load_symbol P h name s = (Outcome.ok (Except.ok a), s1)) :
    containsNul name = false ∧ a = P.symAddr h name ∧ a ≠ 0
    ∧ s1 = { lastError := s.lastError,
             trace := s.trace ++ [PEvent.dlsymEv h name a] } := by
  by_cases hnul : containsNul name
  · unfold load_symbol at hres
    simp [hnul] at hres
  · rw [load_symbol_spec P h name s (by simpa using hnul)] at hres
    by_cases hz : P.symAddr h name = 0
    · simp [hz] at hres
    · simp [hz] at hres
      rcases hres with ⟨ha, hs⟩
      subst ha
      exact ⟨by simpa using hnul, rfl, hz, hs.symm⟩

/-- A successful `load_symbol` determines `Snek.symbol`: the address is
wrapped through `SnekSymbol.new` and the state is passed through. -/
theorem snek_symbol_of_ok (P : Platform) (sn : Snek) (name : String)
    (s s1 : St) (a : Nat)
    (hres : load_symbol P sn.handle name s = (Outcome.ok (Except.ok a), s1)) :
    Snek.symbol P sn name s
      = (Outcome.ok (Except.ok (SnekSymbol.new a)), s1) := by
  unfold Snek.symbol
  rw [hres]

/-- Inversion of a successful `Snek.symbol`. -/
theorem snek_symbol_ok_inv (P : Platform) (sn : Snek) (name : String)
    (s s1 : St) (sym : SnekSymbol)
    (hres : Snek.symbol P sn name s = (Outcome.ok (Except.ok sym), s1)) :
    load_symbol P sn.handle name s
      = (Outcome.ok (Except.ok sym.symbol), s1) := by
  unfold Snek.symbol at hres
  rcases hls : load_symbol P sn.handle name s with ⟨r, s2⟩
  rw [hls] at hres
  rcases r with v | _
  · rcases v with e | a
    · simp at hres
    · simp at hres
      obtain ⟨h1, h2⟩ := hres
      rw [h2, ← h1]
      rfl
  · simp at hres

/-- A successful `load_library` determines `Snek.load`: the handle is
wrapped in a `Snek` value and the state is passed through. -/
theorem snek_load_of_ok (P : Platform) (path : String) (s s1 : St) (a : Nat)
    (hres : load_library P path s = (Outcome.ok (Except.ok a), s1)) :
    Snek.load P path s = (Outcome.ok (Except.ok { handle := a }), s1) := by
  unfold Snek.load
  rw [hres]

/-!  Claim theorems.  -/

/-- Claim C1 (the code refutes the claimed release): on a platform where
the library at "libexample.so" opens with handle 7 and of the declared
symbols `hello, add` only "hello" resolves, the macro-generated `load`
fails as a whole — the value returned is the `SymbolLoadError`, so no
partially-initialized wrapper is observable — but the complete platform
trace of the construction contains no `dlclose` on the open handle 7:
`drop_library` is never invoked before the error is returned, and the
library handle leaks. -/
theorem genLoad_partial_failure_leaks_library :
    (genLoad bugPlatform ["hello", "add"] "libexample.so" st0).1
      = Outcome.ok (Except.error (Error.SymbolLoadError "undefined symbol"))
  ∧ (genLoad bugPlatform ["hello", "add"] "libexample.so" st0).2.trace
      = [PEvent.dlopenEv "libexample.so" 7, PEvent.dlsymEv 7 "hello" 3,
         PEvent.dlsymEv 7 "add" 0, PEvent.dlerrorEv "undefined symbol"]
  ∧ closeCount 7
      (genLoad bugPlatform ["hello", "add"] "libexample.so" st0).2.trace
      = 0 := by
  refine ⟨?_, ?_, ?_⟩ <;> rfl

/-- Claim C2: for every stored address `a` and every caller-supplied
function `f`, `SnekSymbol.new a` followed by `with` reinterprets the
stored address under the caller-asserted reading `reinterpret` of its bit
pattern as a `Signature` value (the model of `ptr::read`, quantified over
all possible readings), applies `f` to that reinterpreted value, and
returns exactly the result of `f`. -/
theorem symbol_with_reinterprets_stored_address {T U : Type}
    (reinterpret : Nat → T) (a : Nat) (f : T → U) :
    SnekSymbol.with' reinterpret (SnekSymbol.new a) f = f (reinterpret a) :=
  rfl

/-- Claim C3: for every path convertible to a C string, `load_library`
returns `Ok` exactly when the platform open returns a non-null address
(and then the handle is that address, and `Snek.load` wraps it), and
returns `Err (LibraryLoadError s)` exactly when the open returns the null
sentinel, where `s` is the platform's last-error diagnostic for that
failure (non-empty whenever the platform's diagnostic is). -/
theorem load_library_ok_iff_nonnull (P : Platform) (path : String) (s : St)
    (hnul : containsNul path = false) :
    ((∃ a s1, load_library P path s = (Outcome.ok (Except.ok a), s1))
        ↔ P.openAddr path ≠ 0)
  ∧ ((∃ s1, load_library P path s
        = (Outcome.ok (Except.error
            (Error.LibraryLoadError (P.openErr path))), s1))
        ↔ P.openAddr path = 0)
  ∧ (∀ a s1, load_library P path s = (Outcome.ok (Except.ok a), s1) →
        a = P.openAddr path
        ∧ Snek.load P path s
            = (Outcome.ok (Except.ok { handle := a }), s1))
  ∧ (∀ msg s1, load_library P path s
        = (Outcome.ok (Except.error (Error.LibraryLoadError msg)), s1) →
        msg = P.openErr path ∧ (P.openErr path ≠ "" → msg ≠ "")) := by
  refine ⟨?_, ?_, ?_, ?_⟩
  · constructor
    · rintro ⟨a, s1, heq⟩
      obtain ⟨-, ha, hne, -⟩ := load_library_ok_inv P path s s1 a heq
      exact ha ▸ hne
    · intro hz
      refine ⟨P.openAddr path,
        { lastError := s.lastError,
          trace := s.trace
            ++ [PEvent.dlopenEv path (P.openAddr path)] }, ?_⟩
      rw [load_library_spec P path s hnul]
      simp [hz]
  · constructor
    · rintro ⟨s1, heq⟩
      rw [load_library_spec P path s hnul] at heq
      by_cases hz : P.openAddr path = 0
      · exact hz
      · simp [hz] at heq
    · intro hz
      refine ⟨{ lastError := P.openErr path,
                trace := s.trace
                  ++ [PEvent.dlopenEv path 0,
                      PEvent.dlerrorEv (P.openErr path)] }, ?_⟩
      rw [load_library_spec P path s hnul]
      simp [hz]
  · intro a s1 heq
    obtain ⟨-, ha, -, -⟩ := load_library_ok_inv P path s s1 a heq
    exact ⟨ha, snek_load_of_ok P path s s1 a heq⟩
  · intro msg s1 heq
    rw [load_library_spec P path s hnul] at heq
    by_cases hz : P.openAddr path = 0
    · simp [hz] at heq
      obtain ⟨hmsg, -⟩ := heq
      exact ⟨hmsg.symm, fun hne => hmsg.symm ▸ hne⟩
    · simp [hz] at heq

/-- Witness for C3: on `bugPlatform` (every open yields handle 7) with the
path "libexample.so", the hypotheses hold and the characterization
applies. -/
theorem load_library_ok_iff_nonnull_witness :
    containsNul "libexample.so" = false
  ∧ (((∃ a s1, load_library bugPlatform "libexample.so" st0
          = (Outcome.ok (Except.ok a), s1))
        ↔ bugPlatform.openAddr "libexample.so" ≠ 0)
      ∧ ((∃ s1, load_library bugPlatform "libexample.so" st0
          = (Outcome.ok (Except.error (Error.LibraryLoadError
              (bugPlatform.openErr "libexample.so"))), s1))
        ↔ bugPlatform.openAddr "libexample.so" = 0)
      ∧ (∀ a s1, load_library bugPlatform "libexample.so" st0
            = (Outcome.ok (Except.ok a), s1) →
          a = bugPlatform.openAddr "libexample.so"
          ∧ Snek.load bugPlatform "libexample.so" st0
              = (Outcome.ok (Except.ok { handle := a }), s1))
      ∧ (∀ msg s1, load_library bugPlatform "libexample.so" st0
            = (Outcome.ok (Except.error
                (Error.LibraryLoadError msg)), s1) →
          msg = bugPlatform.openErr "libexample.so"
          ∧ (bugPlatform.openErr "libexample.so" ≠ "" → msg ≠ ""))) :=
  ⟨by decide,
   load_library_ok_iff_nonnull bugPlatform "libexample.so" st0 (by decide)⟩

/-- Claim C4: for every live handle and every name convertible to a C
string, `load_symbol` returns `Ok` exactly when the platform resolve
returns a non-null address (and then the address is that resolution, and
`Snek.symbol` wraps it in a `SnekSymbol`), and returns
`Err (SymbolLoadError s)` exactly when the resolve returns the null
sentinel, where `s` is the platform's last-error diagnostic for that
failure (non-empty whenever the platform's diagnostic is). -/
theorem load_symbol_ok_iff_nonnull (P : Platform) (h : Nat) (name : String)
    (s : St) (hnul : containsNul name = false) :
    ((∃ a s1, load_symbol P h name s = (Outcome.ok (Except.ok a), s1))
        ↔ P.symAddr h name ≠ 0)
  ∧ ((∃ s1, load_symbol P h name s
        = (Outcome.ok (Except.error
            (Error.SymbolLoadError (P.symErr h name))), s1))
        ↔ P.symAddr h name = 0)
  ∧ (∀ a s1, load_symbol P h name s = (Outcome.ok (Except.ok a), s1) →
        a = P.symAddr h name
        ∧ Snek.symbol P { handle := h } name s
            = (Outcome.ok (Except.ok (SnekSymbol.new a)), s1))
  ∧ (∀ msg s1, load_symbol P h name s
        = (Outcome.ok (Except.error (Error.SymbolLoadError msg)), s1) →
        msg = P.symErr h name ∧ (P.symErr h name ≠ "" → msg ≠ "")) := by
  refine ⟨?_, ?_, ?_, ?_⟩
  · constructor
    · rintro ⟨a, s1, heq⟩
      obtain ⟨-, ha, hne, -⟩ := load_symbol_ok_inv P h name s s1 a heq
      exact ha ▸ hne
    · intro hz
      refine ⟨P.symAddr h name,
        { lastError := s.lastError,
          trace := s.trace
            ++ [PEvent.dlsymEv h name (P.symAddr h name)] }, ?_⟩
      rw [load_symbol_spec P h name s hnul]
      simp [hz]
  · constructor
    · rintro ⟨s1, heq⟩
      rw [load_symbol_spec P h name s hnul] at heq
      by_cases hz : P.symAddr h name = 0
      · exact hz
      · simp [hz] at heq
    · intro hz
      refine ⟨{ lastError := P.symErr h name,
                trace := s.trace
                  ++ [PEvent.dlsymEv h name 0,
                      PEvent.dlerrorEv (P.symErr h name)] }, ?_⟩
      rw [load_symbol_spec P h name s hnul]
      simp [hz]
  · intro a s1 heq
    obtain ⟨-, ha, -, -⟩ := load_symbol_ok_inv P h name s s1 a heq
    exact ⟨ha, snek_symbol_of_ok P { handle := h } name s s1 a heq⟩
  · intro msg s1 heq
    rw [load_symbol_spec P h name s hnul] at heq
    by_cases hz : P.symAddr h name = 0
    · simp [hz] at heq
      obtain ⟨hmsg, -⟩ := heq
      exact ⟨hmsg.symm, fun hne => hmsg.symm ▸ hne⟩
    · simp [hz] at heq

/-- Witness for C4: on `bugPlatform` with handle 7 and the name "hello",
the hypothesis holds and the characterization applies. -/
theorem load_symbol_ok_iff_nonnull_witness :
    containsNul "hello" = false
  ∧ (((∃ a s1, load_symbol bugPlatform 7 "hello" st0
          = (Outcome.ok (Except.ok a), s1))
        ↔ bugPlatform.symAddr 7 "hello" ≠ 0)
      ∧ ((∃ s1, load_symbol bugPlatform 7 "hello" st0
          = (Outcome.ok (Except.error (Error.SymbolLoadError
              (bugPlatform.symErr 7 "hello"))), s1))
        ↔ bugPlatform.symAddr 7 "hello" = 0)
      ∧ (∀ a s1, load_symbol bugPlatform 7 "hello" st0
            = (Outcome.ok (Except.ok a), s1) →
          a = bugPlatform.symAddr 7 "hello"
          ∧ Snek.symbol bugPlatform { handle := 7 } "hello" st0
              = (Outcome.ok (Except.ok (SnekSymbol.new a)), s1))
      ∧ (∀ msg s1, load_symbol bugPlatform 7 "hello" st0
            = (Outcome.ok (Except.error
                (Error.SymbolLoadError msg)), s1) →
          msg = bugPlatform.symErr 7 "hello"
          ∧ (bugPlatform.symErr 7 "hello" ≠ "" → msg ≠ ""))) :=
  ⟨by decide,
   load_symbol_ok_iff_nonnull bugPlatform 7 "hello" st0 (by decide)⟩

/-- Claim C5: over the whole lifetime of a successfully opened handle —
construction, an arbitrary sequence of symbol lookups, destruction —
exactly one `dlclose` is issued on the handle, and it is issued by the
destruction step: construction and symbol lookups issue none, and the
destructor appends exactly the one `dlclose` event. -/
theorem close_issued_exactly_once_at_drop (P : Platform) (path : String)
    (names : List String) (s s1 : St) (sn : Snek)
    (hload : Snek.load P path s = (Outcome.ok (Except.ok sn), s1)) :
    closeCount sn.handle s1.trace = closeCount sn.handle s.trace
  ∧ closeCount sn.handle (runSymbolCalls P sn names s1).trace
      = closeCount sn.handle s.trace
  ∧ (Snek.drop sn (runSymbolCalls P sn names s1)).trace
      = (runSymbolCalls P sn names s1).trace
          ++ [PEvent.dlcloseEv sn.handle]
  ∧ closeCount sn.handle
      (Snek.drop sn (runSymbolCalls P sn names s1)).trace
      = closeCount sn.handle s.trace + 1 := by
  have hll := snek_load_ok_inv P path s s1 sn hload
  obtain ⟨-, -, -, hs1⟩ := load_library_ok_inv P path s s1 sn.handle hll
  have h1 : closeCount sn.handle s1.trace = closeCount sn.handle s.trace := by
    rw [hs1]
    simp [closeCount_append, closeCount, PEvent.isCloseOf]
  have h2 := (closeCount_runSymbolCalls P sn names s1 sn.handle).trans h1
  refine ⟨h1, h2, rfl, ?_⟩
  show closeCount sn.handle
      ((runSymbolCalls P sn names s1).trace
        ++ [PEvent.dlcloseEv sn.handle])
      = closeCount sn.handle s.trace + 1
  rw [closeCount_append, h2]
  simp [closeCount, PEvent.isCloseOf]

/-- Witness for C5: the concrete session on `bugPlatform` — open
"libexample.so" (handle 7), look up "hello" and "missing", destroy —
issues exactly one `dlclose` on handle 7. -/
theorem close_issued_exactly_once_at_drop_witness :
    Snek.load bugPlatform "libexample.so" st0
      = (Outcome.ok (Except.ok { handle := 7 }),
         { lastError := "",
           trace := [PEvent.dlopenEv "libexample.so" 7] })
  ∧ closeCount 7
      (Snek.drop { handle := 7 }
        (runSymbolCalls bugPlatform { handle := 7 } ["hello", "missing"]
          { lastError := "",
            trace := [PEvent.dlopenEv "libexample.so" 7] })).trace
      = closeCount 7 st0.trace + 1 :=
  ⟨rfl,
   (close_issued_exactly_once_at_drop bugPlatform "libexample.so"
      ["hello", "missing"] st0
      { lastError := "", trace := [PEvent.dlopenEv "libexample.so" 7] }
      { handle := 7 } rfl).2.2.2⟩

/-- Claim C6: `Snek.symbol` borrows the `Snek` immutably — in the model it
cannot alter the stored handle, which is why the theorem quantifies one
fixed `sn` across calls — and its returned value (success, failure and
the failure's diagnostic alike) is a function of the platform, the stored
handle and the requested name only, independent of the platform state left
behind by earlier calls: a later lookup after a failed one returns exactly
what it would return had the failed call never happened. -/
theorem snek_symbol_frame (P : Platform) (sn : Snek) (n n2 : String)
    (s s' : St) :
    (Snek.symbol P sn n s).1 = (Snek.symbol P sn n s').1
  ∧ (load_symbol P sn.handle n s).1 = (load_symbol P sn.handle n s').1
  ∧ (Snek.symbol P sn n2 ((Snek.symbol P sn n s).2)).1
      = (Snek.symbol P sn n2 s').1 := by
  have key : ∀ (m : String) (t t' : St),
      (Snek.symbol P sn m t).1 = (Snek.symbol P sn m t').1 := by
    intro m t t'
    rw [snek_symbol_fst, snek_symbol_fst,
        load_symbol_fst_const P sn.handle m t t']
  exact ⟨key n s s', load_symbol_fst_const P sn.handle n s s',
         key n2 ((Snek.symbol P sn n s).2) s'⟩

/-- Claim C7: in every failing execution of `load_library` or
`load_symbol`, the very next platform call after the null-result failure
is the read of the last-error slot — the trace gains exactly the failing
call followed immediately by the `dlerror` read, with no platform call in
between, and the string read is the diagnostic that failure deposited. -/
theorem error_string_read_immediately_after_failure (P : Platform)
    (path : String) (h : Nat) (name : String) (s : St)
    (hp : containsNul path = false) (hn : containsNul name = false) :
    (P.openAddr path = 0 →
      (load_library P path s).2.trace
        = s.trace ++ [PEvent.dlopenEv path 0,
                      PEvent.dlerrorEv (P.openErr path)])
  ∧ (P.symAddr h name = 0 →
      (load_symbol P h name s).2.trace
        = s.trace ++ [PEvent.dlsymEv h name 0,
                      PEvent.dlerrorEv (P.symErr h name)]) := by
  constructor
  · intro hz
    rw [load_library_spec P path s hp]
    simp [hz]
  · intro hz
    rw [load_symbol_spec P h name s hn]
    simp [hz]

/-- Witness for C7: on `failPlatform` every open and resolve fails, and
the resulting traces are exactly the failing call followed by the
`dlerror` read. -/
theorem error_string_read_immediately_after_failure_witness :
    containsNul "nope.so" = false
  ∧ containsNul "f" = false
  ∧ (load_library failPlatform "nope.so" st0).2.trace
      = [PEvent.dlopenEv "nope.so" 0, PEvent.dlerrorEv "cannot open"]
  ∧ (load_symbol failPlatform 7 "f" st0).2.trace
      = [PEvent.dlsymEv 7 "f" 0, PEvent.dlerrorEv "no symbol"] :=
  ⟨by decide, by decide,
   by simpa using
     (error_string_read_immediately_after_failure failPlatform "nope.so"
        7 "f" st0 (by decide) (by decide)).1 rfl,
   by simpa using
     (error_string_read_immediately_after_failure failPlatform "nope.so"
        7 "f" st0 (by decide) (by decide)).2 rfl⟩

/-- Claim C8: a path or name whose C-string conversion fails (it contains
a null character) makes `load_library` / `load_symbol` abort by panic —
the `.unwrap()` on the failed conversion — and conversion failure is
never surfaced as a returned value: whenever either function returns
normally (`Ok` or `Err` alike), the input was convertible. -/
theorem nul_conversion_panics_never_err (P : Platform) (path : String)
    (h : Nat) (name : String) (s : St) :
    (containsNul path = true →
        (load_library P path s).1 = Outcome.panicked)
  ∧ (containsNul name = true →
        (load_symbol P h name s).1 = Outcome.panicked)
  ∧ (∀ r s1, load_library P path s = (Outcome.ok r, s1) →
        containsNul path = false)
  ∧ (∀ r s1, load_symbol P h name s = (Outcome.ok r, s1) →
        containsNul name = false) := by
  refine ⟨?_, ?_, ?_, ?_⟩
  · intro hc
    unfold load_library
    simp [hc]
  · intro hc
    unfold load_symbol
    simp [hc]
  · intro r s1 heq
    by_cases hc : containsNul path
    · unfold load_library at heq
      simp [hc] at heq
    · simpa using hc
  · intro r s1 heq
    by_cases hc : containsNul name
    · unfold load_symbol at heq
      simp [hc] at heq
    · simpa using hc

/-- Witness for C8: on the one-null-character string, both functions
panic rather than returning an error value. -/
theorem nul_conversion_panics_never_err_witness :
    containsNul nulStr = true
  ∧ (load_library bugPlatform nulStr st0).1 = Outcome.panicked
  ∧ (load_symbol bugPlatform 7 nulStr st0).1 = Outcome.panicked :=
  ⟨by decide,
   (nul_conversion_panics_never_err bugPlatform nulStr 7 nulStr st0).1
     (by decide),
   (nul_conversion_panics_never_err bugPlatform nulStr 7 nulStr st0).2.1
     (by decide)⟩

/-- Claim C9: on the windows backend, whenever `FormatMessageA` yields
zero characters for the captured error code, `last_error_string` is
`None` and the diagnostic placed in the returned `LibraryLoadError` or
`SymbolLoadError` is exactly "Unknown Error"; the error-reporting path
always produces an error value, never a further failure. -/
theorem windows_unknown_error_fallback (W : WinPlatform) (path : String)
    (h : Nat) (name : String)
    (hfmt : W.formatMessage (toUInt32n (Windows.last_error_hr W)) = "")
    (hp : containsNul path = false) (hn : containsNul name = false) :
    Windows.last_error_string W = none
  ∧ (W.loadLibraryA path = 0 →
      Windows.load_library W path
        = Outcome.ok (Except.error
            (Error.LibraryLoadError "Unknown Error")))
  ∧ (W.getProcAddress h name = 0 →
      Windows.load_symbol W h name
        = Outcome.ok (Except.error
            (Error.SymbolLoadError "Unknown Error"))) := by
  have hnone : Windows.last_error_string W = none := by
    unfold Windows.last_error_string Windows.hresult_to_string
    simp [hfmt]
  refine ⟨hnone, ?_, ?_⟩
  · intro hz
    unfold Windows.load_library
    simp [hp, hz, hnone]
  · intro hz
    unfold Windows.load_symbol
    simp [hn, hz, hnone]

/-- Witness for C9: on `zeroFmtWin`, formatting yields zero characters and
both failing operations report exactly "Unknown Error". -/
theorem windows_unknown_error_fallback_witness :
    zeroFmtWin.formatMessage (toUInt32n (Windows.last_error_hr zeroFmtWin))
      = ""
  ∧ containsNul "libexample.so" = false
  ∧ containsNul "add" = false
  ∧ Windows.load_library zeroFmtWin "libexample.so"
      = Outcome.ok (Except.error (Error.LibraryLoadError "Unknown Error"))
  ∧ Windows.load_symbol zeroFmtWin 7 "add"
      = Outcome.ok (Except.error (Error.SymbolLoadError "Unknown Error")) :=
  ⟨rfl, by decide, by decide,
   (windows_unknown_error_fallback zeroFmtWin "libexample.so" 7 "add"
      rfl (by decide) (by decide)).2.1 rfl,
   (windows_unknown_error_fallback zeroFmtWin "libexample.so" 7 "add"
      rfl (by decide) (by decide)).2.2 rfl⟩

/-- Claim C10: every successfully constructed handle wraps a non-null
address: an `Ok` from `load_library` or `load_symbol` carries a non-null
address, and hence every `Snek` produced by `Snek.load` and every
`SnekSymbol` produced by `Snek.symbol` holds a non-null pointer from
construction onward. -/
theorem ok_results_are_nonnull (P : Platform) (path : String) (h : Nat)
    (name : String) (s : St) :
    (∀ a s1, load_library P path s = (Outcome.ok (Except.ok a), s1) →
        a ≠ 0)
  ∧ (∀ a s1, load_symbol P h name s = (Outcome.ok (Except.ok a), s1) →
        a ≠ 0)
  ∧ (∀ sn s1, Snek.load P path s = (Outcome.ok (Except.ok sn), s1) →
        sn.handle ≠ 0)
  ∧ (∀ sym s1, Snek.symbol P { handle := h } name s
        = (Outcome.ok (Except.ok sym), s1) → sym.symbol ≠ 0) := by
  refine ⟨?_, ?_, ?_, ?_⟩
  · intro a s1 heq
    obtain ⟨-, -, hne, -⟩ := load_library_ok_inv P path s s1 a heq
    exact hne
  · intro a s1 heq
    obtain ⟨-, -, hne, -⟩ := load_symbol_ok_inv P h name s s1 a heq
    exact hne
  · intro sn s1 heq
    obtain ⟨-, -, hne, -⟩ := load_library_ok_inv P path s s1 sn.handle
      (snek_load_ok_inv P path s s1 sn heq)
    exact hne
  · intro sym s1 heq
    obtain ⟨-, -, hne, -⟩ := load_symbol_ok_inv P h name s s1 sym.symbol
      (snek_symbol_ok_inv P { handle := h } name s s1 sym heq)
    exact hne

/-- Witness for C10: on `bugPlatform`, the successful open of
"libexample.so" yields 7 and the successful resolve of "hello" yields 3,
both non-null. -/
theorem ok_results_are_nonnull_witness :
    load_library bugPlatform "libexample.so" st0
      = (Outcome.ok (Except.ok 7),
         { lastError := "",
           trace := [PEvent.dlopenEv "libexample.so" 7] })
  ∧ (7 : Nat) ≠ 0
  ∧ (3 : Nat) ≠ 0 :=
  ⟨rfl,
   (ok_results_are_nonnull bugPlatform "libexample.so" 7 "hello" st0).1 7
     { lastError := "", trace := [PEvent.dlopenEv "libexample.so" 7] } rfl,
   (ok_results_are_nonnull bugPlatform "libexample.so" 7 "hello" st0).2.1 3
     { lastError := "", trace := [PEvent.dlsymEv 7 "hello" 3] } rfl⟩
